import Mathlib

/-!
Verification of the aggregation-and-generation core of the case-study
generator service.  The Python source under `apps/api` is shallowly embedded:
datetimes are modelled as integer seconds since an epoch (ISO strings are
represented by their parsed instants), `timedelta.days` becomes flooring
integer division by 86400, Python dicts become association lists that keep
insertion order, and exceptions of fallible steps are modelled with explicit
outcome values.  Log statements and database/session I/O have no observable
effect on the values the claims speak about and are dropped.
-/

namespace CaseStudyGen

/-! ### Data model for `LLMService._select_most_relevant_emails`

An email dictionary as produced by the Gmail connector, restricted to the
keys the selector reads.  `date` holds the parsed timestamp of the `date`
string (`none` when the key is missing or unparseable, in which case the
source's `try` block scores no temporal component). -/

structure Email where
  date : Option Int
  labels : List String
  attachments : Nat
  bodyText : String
  threadId : String
  sender : String
  recipient : String
deriving DecidableEq

/-- `sender.split('@')[-1] if '@' in sender else ''` from the internal-domain
bonus in `_select_most_relevant_emails`. -/
def domainOf (s : String) : String :=
  if s.contains '@' then (s.splitOn "@").getLastD "" else ""

/-- The per-email relevance score accumulated by
`_select_most_relevant_emails` (llm_service.py lines 396-471).  The source
adds each component to `score` with `+=`; the sum below lists the addends in
the source's order.  `int(recency_ratio * 2)` is exact integer arithmetic for
the day counts involved, so it is rendered as flooring division. -/
def emailScore (allEmails : List Email) (range : Option (Int × Int))
    (now : Int) (e : Email) : Int :=
  let dateScore : Int :=
    match e.date with
    | none => 0
    | some d =>
      match range with
      | some (s, en) =>
        if s ≤ d ∧ d ≤ en then
          let total := Int.fdiv (en - s) 86400
          3 + (if 0 < total then
                 Int.fdiv (2 * (total - Int.fdiv (en - d) 86400)) total
               else 0)
        else -2
      | none =>
        let daysAgo := Int.fdiv (now - d) 86400
        if daysAgo ≤ 7 then 2 else if daysAgo ≤ 30 then 1 else 0
  let labelScore : Int :=
    (if "IMPORTANT" ∈ e.labels then 4 else 0) +
    (if "STARRED" ∈ e.labels then 3 else 0) +
    (if "CATEGORY_PROMOTIONS" ∉ e.labels ∧ "SPAM" ∉ e.labels then 2 else 0)
  let attachScore : Int := if 0 < e.attachments then 2 else 0
  let bodyScore : Int :=
    if 1000 < e.bodyText.length then 3
    else if 500 < e.bodyText.length then 2
    else if 200 < e.bodyText.length then 1
    else 0
  let threadScore : Int :=
    if e.threadId ≠ "" then
      let threadCount := (allEmails.filter (fun x => x.threadId = e.threadId)).length
      if 3 < threadCount then 3 else if 1 < threadCount then 2 else 0
    else 0
  let domainScore : Int :=
    if e.sender ≠ "" ∧ e.recipient ≠ "" then
      if domainOf e.sender = domainOf e.recipient ∧ domainOf e.sender ≠ "" then 2
      else 0
    else 0
  dateScore + labelScore + attachScore + bodyScore + threadScore + domainScore

/-- `LLMService._select_most_relevant_emails` (llm_service.py lines 382-480).
Python's `list.sort(key=..., reverse=True)` is a stable sort descending by
the score, which `List.insertionSort` with the relation `b.1 ≤ a.1` computes
as well (both are the unique stable descending ordering). -/
def selectMostRelevantEmails (emails : List Email) (maxEmails : Nat)
    (projectDateRange : Option (Int × Int)) (now : Int) : List Email :=
  if emails.isEmpty then []
  else if emails.length ≤ maxEmails then emails
  else
    let scored := emails.map (fun e => (emailScore emails projectDateRange now e, e))
    let sorted := List.insertionSort (fun a b => b.1 ≤ a.1) scored
    (sorted.take maxEmails).map Prod.snd

/-- Claim C1: for every input email list of size `n` and every positive
budget, `_select_most_relevant_emails` returns exactly `min n budget` items,
every returned item occurs in the input list, and when `n ≤ budget` the
input list is returned unchanged. -/
theorem c1_selector_returns_min_budget (emails : List Email) (budget : Nat)
    (range : Option (Int × Int)) (now : Int) (hb : 0 < budget) :
    (selectMostRelevantEmails emails budget range now).length =
        min emails.length budget ∧
    (∀ e ∈ selectMostRelevantEmails emails budget range now, e ∈ emails) ∧
    (emails.length ≤ budget →
      selectMostRelevantEmails emails budget range now = emails) := by
  unfold selectMostRelevantEmails
  by_cases h0 : emails.isEmpty
  · have h0e : emails = [] := List.isEmpty_iff.mp h0
    subst h0e
    simp
  · rw [if_neg h0]
    by_cases h1 : emails.length ≤ budget
    · rw [if_pos h1]
      exact ⟨(Nat.min_eq_left h1).symm, fun e he => he, fun _ => rfl⟩
    · rw [if_neg h1]
      refine ⟨?_, ?_, fun h => absurd h h1⟩
      · rw [List.length_map, List.length_take, List.length_insertionSort,
          List.length_map]
        omega
      · intro e he
        obtain ⟨p, hp, hpe⟩ := List.mem_map.mp he
        have hp2 : p ∈ List.insertionSort (fun a b => b.1 ≤ a.1)
            (emails.map (fun e => (emailScore emails range now e, e))) :=
          List.mem_of_mem_take hp
        have hp3 : p ∈ emails.map (fun e => (emailScore emails range now e, e)) :=
          (List.perm_insertionSort _ _).mem_iff.mp hp2
        obtain ⟨e', he', heq⟩ := List.mem_map.mp hp3
        rw [← hpe, ← heq]
        exact he'

/-- Concrete emails used as witness inputs for the selector claims. -/
def wEmailA : Email := ⟨some 0, ["IMPORTANT"], 0, "", "", "", ""⟩

def wEmailB : Email := ⟨some 0, ["STARRED"], 0, "", "", "", ""⟩

def wEmailC : Email := ⟨some 0, [], 0, "", "", "", ""⟩

theorem c1_selector_returns_min_budget_witness :
    0 < 2 ∧
    ((selectMostRelevantEmails [wEmailA, wEmailB, wEmailC] 2 none 0).length =
        min ([wEmailA, wEmailB, wEmailC] : List Email).length 2 ∧
      (∀ e ∈ selectMostRelevantEmails [wEmailA, wEmailB, wEmailC] 2 none 0,
          e ∈ [wEmailA, wEmailB, wEmailC]) ∧
      (([wEmailA, wEmailB, wEmailC] : List Email).length ≤ 2 →
        selectMostRelevantEmails [wEmailA, wEmailB, wEmailC] 2 none 0 =
          [wEmailA, wEmailB, wEmailC])) :=
  ⟨by decide, c1_selector_returns_min_budget [wEmailA, wEmailB, wEmailC] 2 none 0 (by decide)⟩

/-! ### Stability of the selector's sort

Python's `list.sort` is stable; the following lemmas show the same for
`List.insertionSort` with the descending-score relation used above: the
sorted list restricted to any one score value is the input restricted to
that value, in input order. -/

lemma filter_orderedInsert_key {α : Type} (s : Int) (a : Int × α)
    (l : List (Int × α)) :
    (List.orderedInsert (fun x y => y.1 ≤ x.1) a l).filter (fun p => p.1 = s) =
      if a.1 = s then a :: l.filter (fun p => p.1 = s)
      else l.filter (fun p => p.1 = s) := by
  induction l with
  | nil =>
    simp only [List.orderedInsert, List.filter_cons, List.filter_nil]
    by_cases has : a.1 = s <;> simp [has]
  | cons b l ih =>
    by_cases hab : b.1 ≤ a.1
    · simp only [List.orderedInsert, if_pos hab, List.filter_cons]
      by_cases has : a.1 = s <;> by_cases hbs : b.1 = s <;> simp [has, hbs]
    · simp only [List.orderedInsert, if_neg hab, List.filter_cons]
      by_cases hbs : b.1 = s
      · have has : ¬(a.1 = s) := fun h => hab (le_of_eq (by omega))
        simp [hbs, has, ih]
      · simp [hbs, ih]

lemma filter_insertionSort_key {α : Type} (s : Int) (l : List (Int × α)) :
    (List.insertionSort (fun x y => y.1 ≤ x.1) l).filter (fun p => p.1 = s) =
      l.filter (fun p => p.1 = s) := by
  induction l with
  | nil => rfl
  | cons a l ih =>
    rw [List.insertionSort, filter_orderedInsert_key, ih, List.filter_cons]
    by_cases has : a.1 = s <;> simp [has]

lemma filter_map_snd_of_key {α : Type} (f : α → Int) (s : Int)
    (l : List (Int × α)) (h : ∀ p ∈ l, p.1 = f p.2) :
    (l.map Prod.snd).filter (fun e => f e = s) =
      (l.filter (fun p => p.1 = s)).map Prod.snd := by
  induction l with
  | nil => rfl
  | cons p l ih =>
    have hp : p.1 = f p.2 := h p (by simp)
    have ih2 := ih (fun q hq => h q (by simp [hq]))
    simp only [List.map_cons, List.filter_cons]
    by_cases hs : p.1 = s
    · rw [if_pos (by simpa using hp ▸ hs), if_pos (by simpa using hs),
        List.map_cons, ih2]
    · rw [if_neg (by simpa using hp ▸ hs), if_neg (by simpa using hs), ih2]

lemma filter_take_initial {β : Type} (q : β → Bool) (n : Nat) (l : List β) :
    (l.take n).filter q <+: l.filter q := by
  conv_rhs => rw [← List.take_append_drop n l]
  rw [List.filter_append]
  exact List.prefix_append _ _

lemma map_pres_initial {β γ : Type} (f : β → γ) {l₁ l₂ : List β}
    (h : l₁ <+: l₂) : l₁.map f <+: l₂.map f := by
  obtain ⟨t, ht⟩ := h
  exact ⟨t.map f, by rw [← List.map_append, ht]⟩

/-- With a reference window supplied, `emailScore` never reads the clock:
`datetime.now()` occurs only in the fallback branch of the source. -/
lemma emailScore_window_no_clock (allEmails : List Email) (w : Int × Int)
    (now₁ now₂ : Int) (e : Email) :
    emailScore allEmails (some w) now₁ e = emailScore allEmails (some w) now₂ e := by
  obtain ⟨d, ls, a, b, t, sdr, rcp⟩ := e
  cases d <;> rfl

/-- Two emails with no scoring signal other than recency: when no reference
window is supplied, their scores depend on the current clock. -/
def cEmailOld : Email := ⟨some (86400 * 80), [], 0, "", "", "", ""⟩

def cEmailNew : Email := ⟨some (86400 * 95), [], 0, "", "", "", ""⟩

/-- Claim C6 counterexample: without a reference window the selector reads
the ambient clock (`datetime.now()` in the source), so the same input
selected at two different instants yields different outputs: at day 100 the
newer email wins on recency; at day 126 both recency tiers are 0 and the
stable tie-break keeps the older, first-listed email. -/
theorem c6_selector_clock_dependence :
    selectMostRelevantEmails [cEmailOld, cEmailNew] 1 none (86400 * 100) ≠
      selectMostRelevantEmails [cEmailOld, cEmailNew] 1 none (86400 * 126) := by
  decide

/-- Claim C6 (amended): the Relevance Selector is a pure function of its
inputs together with the evaluation instant; when a reference window is
supplied the output does not depend on the clock at all; and the sort is
stable: for every score value, the selected emails carrying that score are
an initial segment of the input emails carrying that score, in input order
(so among equal scores the earlier item is always preferred). Without a
window, the score — hence the output — may change with the clock. -/
theorem c6_selector_pure_and_stable (emails : List Email) (budget : Nat)
    (w : Int × Int) (now₁ now₂ : Int) (range : Option (Int × Int))
    (now : Int) (s : Int) :
    selectMostRelevantEmails emails budget (some w) now₁ =
      selectMostRelevantEmails emails budget (some w) now₂ ∧
    (selectMostRelevantEmails emails budget range now).filter
        (fun e => emailScore emails range now e = s) <+:
      emails.filter (fun e => emailScore emails range now e = s) := by
  constructor
  · unfold selectMostRelevantEmails
    have hscore : (fun e => (emailScore emails (some w) now₁ e, e)) =
        (fun e => (emailScore emails (some w) now₂ e, e)) := by
      funext e
      rw [emailScore_window_no_clock emails w now₁ now₂ e]
    rw [hscore]
  · unfold selectMostRelevantEmails
    by_cases h0 : emails.isEmpty
    · rw [if_pos h0, List.filter_nil]
      exact List.nil_prefix
    · rw [if_neg h0]
      by_cases h1 : emails.length ≤ budget
      · rw [if_pos h1]
      · rw [if_neg h1]
        set key := fun e => emailScore emails range now e with hkey
        set scored := emails.map (fun e => (key e, e)) with hscored
        set sorted := List.insertionSort (fun a b => b.1 ≤ a.1) scored with hsorted
        have hinv : ∀ p ∈ sorted.take budget, p.1 = key p.2 := by
          intro p hp
          have hp2 : p ∈ scored :=
            (List.perm_insertionSort _ _).mem_iff.mp (List.mem_of_mem_take hp)
          obtain ⟨e', _, heq⟩ := List.mem_map.mp hp2
          rw [← heq]
        rw [filter_map_snd_of_key key s _ hinv]
        have hstep : (sorted.take budget).filter (fun p => p.1 = s) <+:
            scored.filter (fun p => p.1 = s) := by
          rw [← filter_insertionSort_key s scored, ← hsorted]
          exact filter_take_initial _ budget sorted
        have hmap := map_pres_initial Prod.snd hstep
        rw [← filter_map_snd_of_key key s scored
            (by intro p hp; obtain ⟨e', _, heq⟩ := List.mem_map.mp hp; rw [← heq])]
          at hmap
        have hid : scored.map Prod.snd = emails := by
          rw [hscored, List.map_map]
          have hcomp : (Prod.snd ∘ fun e => (key e, e)) = id := rfl
          rw [hcomp, List.map_id]
        rw [hid] at hmap
        exact hmap

/-! ### Claim C7: the spec's component listing for the relevance score

The next definitions follow the CLAIM's wording (a refinement comparison
against `emailScore`, which is the source translation): a temporal term that
awards +3 plus a 0-2 recency bonus inside a supplied window and otherwise
the absolute recency tiers, importance markers, body-length tiers, an
attachment bonus, thread weight, and a shared-domain bonus — and nothing
else.  Conditions of the unchanged components (tags, lengths, thread counts,
domains) are taken exactly as in the source, which matches the claim's
words. -/

def specTemporalTerm (range : Option (Int × Int)) (now : Int) (e : Email) : Int :=
  match e.date with
  | none => 0
  | some d =>
    match range with
    | some (s, en) =>
      if s ≤ d ∧ d ≤ en then
        let total := Int.fdiv (en - s) 86400
        3 + (if 0 < total then
               Int.fdiv (2 * (total - Int.fdiv (en - d) 86400)) total
             else 0)
      else 0
    | none =>
      let daysAgo := Int.fdiv (now - d) 86400
      if daysAgo ≤ 7 then 2 else if daysAgo ≤ 30 then 1 else 0

/-- The additional term the claim omits: the source subtracts 2 from the
score of an email whose parsed timestamp falls outside a supplied window. -/
def specOutsideWindowPenalty (range : Option (Int × Int)) (e : Email) : Int :=
  match e.date, range with
  | some d, some (s, en) => if s ≤ d ∧ d ≤ en then 0 else -2
  | _, _ => 0

def specImportanceTerm (e : Email) : Int :=
  (if "IMPORTANT" ∈ e.labels then 4 else 0) +
  (if "STARRED" ∈ e.labels then 3 else 0) +
  (if "CATEGORY_PROMOTIONS" ∉ e.labels ∧ "SPAM" ∉ e.labels then 2 else 0)

def specBodyTerm (e : Email) : Int :=
  if 1000 < e.bodyText.length then 3
  else if 500 < e.bodyText.length then 2
  else if 200 < e.bodyText.length then 1
  else 0

def specAttachmentTerm (e : Email) : Int := if 0 < e.attachments then 2 else 0

def specThreadTerm (allEmails : List Email) (e : Email) : Int :=
  if e.threadId ≠ "" then
    let threadCount := (allEmails.filter (fun x => x.threadId = e.threadId)).length
    if 3 < threadCount then 3 else if 1 < threadCount then 2 else 0
  else 0

def specDomainTerm (e : Email) : Int :=
  if e.sender ≠ "" ∧ e.recipient ≠ "" then
    if domainOf e.sender = domainOf e.recipient ∧ domainOf e.sender ≠ "" then 2
    else 0
  else 0

/-- The score exactly as the claim lists it: the sum of the six components
and nothing else. -/
def specEmailScore (allEmails : List Email) (range : Option (Int × Int))
    (now : Int) (e : Email) : Int :=
  specTemporalTerm range now e + specImportanceTerm e + specBodyTerm e +
  specAttachmentTerm e + specThreadTerm allEmails e + specDomainTerm e

/-- The claim amended by the one term the counterexample forces: the
outside-window penalty of -2. -/
def specEmailScoreAmended (allEmails : List Email) (range : Option (Int × Int))
    (now : Int) (e : Email) : Int :=
  specEmailScore allEmails range now e + specOutsideWindowPenalty range e

/-- An email dated at instant 0, outside the supplied reference window. -/
def cEmailOutside : Email := ⟨some 0, [], 0, "", "", "", ""⟩

/-- Claim C7 counterexample: for an email whose timestamp lies outside the
supplied reference window the source computes score 0 (the +2
non-promotional bonus minus the 2-point outside-window penalty), while the
claim's component sum gives 2 — the claim's "no other additive or
subtractive terms" fails. -/
theorem c7_score_formula_counterexample :
    emailScore [cEmailOutside] (some (86400, 172800)) 0 cEmailOutside ≠
      specEmailScore [cEmailOutside] (some (86400, 172800)) 0 cEmailOutside := by
  decide

/-- Claim C7 (amended): for every email, the source's score equals the sum
of exactly the claim's listed components plus one further term the claim
omits: a -2 penalty when a reference window is supplied and the email's
timestamp falls outside it. -/
theorem c7_score_formula_amended (allEmails : List Email)
    (range : Option (Int × Int)) (now : Int) (e : Email) :
    emailScore allEmails range now e =
      specEmailScoreAmended allEmails range now e := by
  obtain ⟨d, ls, a, b, t, sdr, rcp⟩ := e
  unfold emailScore specEmailScoreAmended specEmailScore specTemporalTerm
    specOutsideWindowPenalty specImportanceTerm specBodyTerm
    specAttachmentTerm specThreadTerm specDomainTerm
  cases d with
  | none => cases range <;> ring
  | some dv =>
    cases range with
    | none => ring
    | some w =>
      obtain ⟨ws, wen⟩ := w
      by_cases h : ws ≤ dv ∧ dv ≤ wen
      · simp only [h, true_and, and_true, and_self, if_true]
        ring
      · simp only [h, if_false]
        ring

/-! ### `UnifiedDataService.fetch_all_project_data` (data_service.py 26-159)

Each connected service is processed inside its own `try`: the connector
either returns project data, is silently skipped when not connected
(`continue`), or raises — in which case the exception text is appended to
the result's error list as `"<service>: <message>"` and the loop moves on.
The per-service wall-clock durations and timestamps are I/O-free metadata
the claims do not mention and are dropped from the embedding. -/

structure ServiceData where
  items : List String
  totalItems : Nat
deriving DecidableEq

inductive ServiceOutcome
  | ok (data : ServiceData)
  | raises (msg : String)
  | notConnected
deriving DecidableEq

structure FetchAllResult where
  data : List (String × ServiceData)
  sourcesFetched : List String
  totalItemsFetched : Nat
  errors : List String
deriving DecidableEq

def emptyFetchAllResult : FetchAllResult := ⟨[], [], 0, []⟩

/-- One iteration of the service loop of `fetch_all_project_data`. -/
def processService (acc : FetchAllResult) (svc : String × ServiceOutcome) :
    FetchAllResult :=
  match svc.2 with
  | .ok d =>
    { acc with
      data := acc.data ++ [(svc.1, d)]
      sourcesFetched := acc.sourcesFetched ++ [svc.1]
      totalItemsFetched := acc.totalItemsFetched + d.totalItems }
  | .raises msg => { acc with errors := acc.errors ++ [svc.1 ++ ": " ++ msg] }
  | .notConnected => acc

/-- `fetch_all_project_data`: the user's connected services are processed in
order; a missing user raises `ValueError("User not found")` which the outer
`except` converts into a `"Service: ..."` error entry.  The function always
returns a result record — it is total, so no exception ever reaches the
caller. -/
def fetchAllProjectData (userFound : Bool)
    (connectedServices : List (String × ServiceOutcome)) : FetchAllResult :=
  if userFound then connectedServices.foldl processService emptyFetchAllResult
  else { emptyFetchAllResult with errors := ["Service: User not found"] }

/-- The successful services of an outcome list, with their data. -/
def okEntries (l : List (String × ServiceOutcome)) : List (String × ServiceData) :=
  l.filterMap (fun s => match s.2 with | .ok d => some (s.1, d) | _ => none)

/-- The error entries produced by the raising services of an outcome list. -/
def errorEntries (l : List (String × ServiceOutcome)) : List String :=
  l.filterMap (fun s =>
    match s.2 with | .raises m => some (s.1 ++ ": " ++ m) | _ => none)

lemma processService_fold_characterisation (l : List (String × ServiceOutcome)) :
    ∀ acc : FetchAllResult,
      l.foldl processService acc =
        ⟨acc.data ++ okEntries l,
         acc.sourcesFetched ++ (okEntries l).map Prod.fst,
         acc.totalItemsFetched + ((okEntries l).map (fun p => p.2.totalItems)).sum,
         acc.errors ++ errorEntries l⟩ := by
  induction l with
  | nil => intro acc; simp [okEntries, errorEntries]
  | cons s l ih =>
    intro acc
    obtain ⟨name, outcome⟩ := s
    cases outcome with
    | ok d =>
      rw [List.foldl_cons, ih]
      simp [processService, okEntries, errorEntries, List.filterMap_cons]
      omega
    | raises m =>
      rw [List.foldl_cons, ih]
      simp [processService, okEntries, errorEntries, List.filterMap_cons]
    | notConnected =>
      rw [List.foldl_cons, ih]
      simp [processService, okEntries, errorEntries, List.filterMap_cons]

/-- Claim C2: `fetch_all_project_data` never raises (it is a total function
of the service outcomes) and partitions the connected services: each service
whose fetch succeeds contributes its data and its name to the result, each
service whose fetch raises contributes exactly one error entry keyed by its
service name, and in particular with three connected services of which the
second raises, the result carries the two successful services' data and the
single error entry of the third. -/
theorem c2_aggregator_partial_failure
    (services : List (String × ServiceOutcome)) (d₁ d₃ : ServiceData)
    (msg : String) :
    (fetchAllProjectData true services).data = okEntries services ∧
    (fetchAllProjectData true services).sourcesFetched =
      (okEntries services).map Prod.fst ∧
    (fetchAllProjectData true services).errors = errorEntries services ∧
    fetchAllProjectData true
        [("gmail", .ok d₁), ("drive", .raises msg), ("confluence", .ok d₃)] =
      ⟨[("gmail", d₁), ("confluence", d₃)], ["gmail", "confluence"],
       d₁.totalItems + d₃.totalItems, ["drive: " ++ msg]⟩ := by
  refine ⟨?_, ?_, ?_, ?_⟩
  · rw [fetchAllProjectData, if_pos rfl, processService_fold_characterisation]
    simp [emptyFetchAllResult]
  · rw [fetchAllProjectData, if_pos rfl, processService_fold_characterisation]
    simp [emptyFetchAllResult]
  · rw [fetchAllProjectData, if_pos rfl, processService_fold_characterisation]
    simp [emptyFetchAllResult]
  · rw [fetchAllProjectData, if_pos rfl, processService_fold_characterisation]
    simp [okEntries, errorEntries, emptyFetchAllResult]

/-! ### The `User` model (models/user.py) and credential dictionaries

Python dicts become association lists keeping insertion order; a dict value
is falsy when it is `None` or empty, which `dictIsEmpty` mirrors.  ISO
datetime strings stored in the credential maps are represented by their
parsed instants (`Option Int`), so `datetime.fromisoformat`/`isoformat`
round-trips become the identity. -/

structure ServiceCreds where
  accessToken : Option String
  refreshToken : Option String
  expiresAt : Option Int
deriving DecidableEq

structure ConnectionInfo where
  connectedAt : Option Int
  expiresAt : Option Int
deriving DecidableEq

structure User where
  gmailAccessToken : Option String
  gmailRefreshToken : Option String
  gmailTokenExpiresAt : Option Int
  gmailConnectedAt : Option Int
  driveAccessToken : Option String
  driveRefreshToken : Option String
  driveTokenExpiresAt : Option Int
  driveConnectedAt : Option Int
  serviceCredentials : Option (List (String × ServiceCreds))
  serviceConnections : Option (List (String × ConnectionInfo))
  updatedAt : Int
deriving DecidableEq

/-- Python truthiness of an optional dict: `None` and `{}` are falsy. -/
def dictIsEmpty {β : Type} : Option (List (String × β)) → Bool
  | none => true
  | some l => l.isEmpty

/-- `dict.get(key)`. -/
def dictGet {β : Type} (d : Option (List (String × β))) (k : String) : Option β :=
  (d.getD []).lookup k

/-- `dict[key] = value`: replace an existing key in place, else append
(Python dicts keep insertion order). -/
def dictSet {β : Type} (l : List (String × β)) (k : String) (v : β) :
    List (String × β) :=
  if l.any (fun p => p.1 = k) then
    l.map (fun p => if p.1 = k then (k, v) else p)
  else l ++ [(k, v)]

/-- `User.is_gmail_connected`. -/
def isGmailConnected (u : User) : Bool :=
  u.gmailAccessToken.isSome && u.gmailRefreshToken.isSome &&
    u.gmailConnectedAt.isSome

/-- `User.is_drive_connected`. -/
def isDriveConnected (u : User) : Bool :=
  u.driveAccessToken.isSome && u.driveRefreshToken.isSome &&
    u.driveConnectedAt.isSome

/-- `User.get_service_credentials`: the generic JSON store when non-empty,
else the legacy per-service columns. -/
def getServiceCredentials (u : User) (serviceType : String) :
    Option ServiceCreds :=
  if dictIsEmpty u.serviceCredentials then
    if serviceType = "gmail" then
      if u.gmailAccessToken.isSome then
        some ⟨u.gmailAccessToken, u.gmailRefreshToken, u.gmailTokenExpiresAt⟩
      else none
    else if serviceType = "drive" then
      if u.driveAccessToken.isSome then
        some ⟨u.driveAccessToken, u.driveRefreshToken, u.driveTokenExpiresAt⟩
      else none
    else none
  else dictGet u.serviceCredentials serviceType

/-- `User.set_service_credentials`: store in the generic map and mirror into
the legacy gmail/drive columns. -/
def setServiceCredentials (u : User) (serviceType : String)
    (credentials : ServiceCreds) : User :=
  let store := dictSet (u.serviceCredentials.getD []) serviceType credentials
  let u' := { u with serviceCredentials := some store }
  if serviceType = "gmail" then
    { u' with
      gmailAccessToken := credentials.accessToken
      gmailRefreshToken := credentials.refreshToken
      gmailTokenExpiresAt := credentials.expiresAt }
  else if serviceType = "drive" then
    { u' with
      driveAccessToken := credentials.accessToken
      driveRefreshToken := credentials.refreshToken
      driveTokenExpiresAt := credentials.expiresAt }
  else u'

/-- `User.get_service_connection_info`. -/
def getServiceConnectionInfo (u : User) (serviceType : String) :
    Option ConnectionInfo :=
  if dictIsEmpty u.serviceConnections then
    if serviceType = "gmail" then
      if u.gmailConnectedAt.isSome then
        some ⟨u.gmailConnectedAt, u.gmailTokenExpiresAt⟩
      else none
    else if serviceType = "drive" then
      if u.driveConnectedAt.isSome then
        some ⟨u.driveConnectedAt, u.driveTokenExpiresAt⟩
      else none
    else none
  else dictGet u.serviceConnections serviceType

/-- `User.is_service_connected`. -/
def isServiceConnected (u : User) (serviceType : String) : Bool :=
  match getServiceCredentials u serviceType,
      getServiceConnectionInfo u serviceType with
  | some c, some i => c.accessToken.isSome && i.connectedAt.isSome
  | _, _ => false

/-- `User.get_connected_services`: the legacy gmail/drive checks first, then
every key of the generic connection map that is connected and not already
listed. -/
def getConnectedServices (u : User) : List String :=
  let connected :=
    (if isGmailConnected u then ["gmail"] else []) ++
    (if isDriveConnected u then ["drive"] else [])
  match u.serviceConnections with
  | none => connected
  | some conns =>
    conns.foldl
      (fun acc p =>
        if isServiceConnected u p.1 && !(acc.contains p.1) then acc ++ [p.1]
        else acc)
      connected

lemma lookup_map_replace {β : Type} (k : String) (v : β) :
    ∀ l : List (String × β), l.any (fun p => p.1 = k) = true →
      (l.map (fun p => if p.1 = k then (k, v) else p)).lookup k = some v := by
  intro l
  induction l with
  | nil => intro h; simp at h
  | cons p l ih =>
    obtain ⟨a, b⟩ := p
    intro h
    by_cases hpk : a = k
    · rw [List.map_cons, if_pos (by simpa using hpk)]
      simp [List.lookup]
    · rw [List.map_cons, if_neg (by simpa using hpk)]
      rw [List.lookup, beq_false_of_ne (Ne.symm hpk)]
      apply ih
      simp only [List.any_cons, Bool.or_eq_true, decide_eq_true_eq] at h
      rcases h with h | h
      · exact absurd h hpk
      · exact h

lemma lookup_append_single {β : Type} (k : String) (v : β) :
    ∀ l : List (String × β), l.any (fun p => p.1 = k) = false →
      (l ++ [(k, v)]).lookup k = some v := by
  intro l
  induction l with
  | nil => intro _; simp [List.lookup]
  | cons p l ih =>
    obtain ⟨a, b⟩ := p
    intro h
    simp only [List.any_cons, Bool.or_eq_false_iff, decide_eq_false_iff_not] at h
    rw [List.cons_append, List.lookup, beq_false_of_ne (Ne.symm h.1)]
    exact ih h.2

lemma lookup_dictSet {β : Type} (l : List (String × β)) (k : String) (v : β) :
    (dictSet l k v).lookup k = some v := by
  unfold dictSet
  by_cases h : l.any (fun p => p.1 = k)
  · rw [if_pos h]
    exact lookup_map_replace k v l h
  · rw [if_neg h]
    exact lookup_append_single k v l (Bool.eq_false_iff.mpr h)

lemma dictSet_isEmpty_false {β : Type} (l : List (String × β)) (k : String)
    (v : β) : (dictSet l k v).isEmpty = false := by
  unfold dictSet
  by_cases h : l.any (fun p => p.1 = k)
  · rw [if_pos h]
    cases l with
    | nil => simp at h
    | cons p l => simp
  · rw [if_neg h]
    cases l <;> simp

lemma setServiceCredentials_store (u : User) (st : String) (c : ServiceCreds) :
    (setServiceCredentials u st c).serviceCredentials =
      some (dictSet (u.serviceCredentials.getD []) st c) := by
  unfold setServiceCredentials
  by_cases h1 : st = "gmail" <;> by_cases h2 : st = "drive" <;> simp [h1, h2]

/-- Claim C10: `set_service_credentials` followed by
`get_service_credentials` on the same service returns exactly the stored
credentials, and for "gmail"/"drive" the legacy per-service columns are
simultaneously set to the corresponding entries of the stored map, keeping
the generic JSON store and the legacy columns consistent. -/
theorem c10_credentials_roundtrip_legacy_sync :
    (∀ (u : User) (st : String) (c : ServiceCreds),
      getServiceCredentials (setServiceCredentials u st c) st = some c) ∧
    (∀ (u : User) (c : ServiceCreds),
      (setServiceCredentials u "gmail" c).gmailAccessToken = c.accessToken ∧
      (setServiceCredentials u "gmail" c).gmailRefreshToken = c.refreshToken ∧
      (setServiceCredentials u "gmail" c).gmailTokenExpiresAt = c.expiresAt) ∧
    (∀ (u : User) (c : ServiceCreds),
      (setServiceCredentials u "drive" c).driveAccessToken = c.accessToken ∧
      (setServiceCredentials u "drive" c).driveRefreshToken = c.refreshToken ∧
      (setServiceCredentials u "drive" c).driveTokenExpiresAt = c.expiresAt) := by
  refine ⟨?_, ?_, ?_⟩
  · intro u st c
    unfold getServiceCredentials
    rw [setServiceCredentials_store]
    rw [if_neg (by simp [dictIsEmpty, dictSet_isEmpty_false])]
    unfold dictGet
    simp [lookup_dictSet]
  · intro u c
    refine ⟨?_, ?_, ?_⟩ <;> simp [setServiceCredentials]
  · intro u c
    refine ⟨?_, ?_, ?_⟩ <;> simp [setServiceCredentials]

/-! ### `TokenRefreshService` (token_refresh_service.py)

The Google OAuth refresh call is the external capability: its outcome is a
parameter — `none` when `credentials.refresh(Request())` raises, otherwise
the refreshed `token` and optional `expiry`.  A refresh operation returns
the boolean result, the user record as persisted by the session, and the
number of refresh calls issued. -/

structure RefreshOutcome where
  token : String
  expiry : Option Int
deriving DecidableEq

/-- `_is_token_expired_or_expiring_soon` with the default 5-minute buffer:
`now >= expires_at - buffer`, and a missing expiry always refreshes. -/
def isTokenExpiredOrExpiringSoon (expiresAt : Option Int) (now : Int) : Bool :=
  match expiresAt with
  | none => true
  | some t => decide (t - 5 * 60 ≤ now)

/-- `refresh_gmail_token` (token_refresh_service.py 25-67).  On refresh
success the new access token is always stored; the expiry column is
overwritten only when the refreshed credentials carry one (`if
credentials.expiry:`), and `updated_at` is set to the current time.  On
refresh failure the `except` returns `False` before any mutation. -/
def refreshGmailToken (u : User) (now : Int) (refresh : Option RefreshOutcome) :
    Bool × User × Nat :=
  if !isGmailConnected u then (false, u, 0)
  else if !isTokenExpiredOrExpiringSoon u.gmailTokenExpiresAt now then
    (true, u, 0)
  else
    match refresh with
    | none => (false, u, 1)
    | some r =>
      (true,
       { u with
         gmailAccessToken := some r.token
         gmailTokenExpiresAt :=
           match r.expiry with
           | some e => some e
           | none => u.gmailTokenExpiresAt
         updatedAt := now },
       1)

/-- `refresh_drive_token` (token_refresh_service.py 69-111), the Drive twin
of `refresh_gmail_token`. -/
def refreshDriveToken (u : User) (now : Int) (refresh : Option RefreshOutcome) :
    Bool × User × Nat :=
  if !isDriveConnected u then (false, u, 0)
  else if !isTokenExpiredOrExpiringSoon u.driveTokenExpiresAt now then
    (true, u, 0)
  else
    match refresh with
    | none => (false, u, 1)
    | some r =>
      (true,
       { u with
         driveAccessToken := some r.token
         driveTokenExpiresAt :=
           match r.expiry with
           | some e => some e
           | none => u.driveTokenExpiresAt
         updatedAt := now },
       1)

/-- `refresh_all_user_tokens` (token_refresh_service.py 113-131): the gmail
refresh runs first on the shared user object, then the drive check reads
the possibly-updated record. -/
def refreshAllUserTokens (u : User) (now : Int)
    (gmailRefresh driveRefresh : Option RefreshOutcome) :
    List (String × Bool) × User :=
  let step1 :=
    if isGmailConnected u then
      let r := refreshGmailToken u now gmailRefresh
      ([("gmail", r.1)], r.2.1)
    else ([], u)
  if isDriveConnected step1.2 then
    let r := refreshDriveToken step1.2 now driveRefresh
    (step1.1 ++ [("drive", r.1)], r.2.1)
  else step1

lemma refreshGmailToken_drive_fields (u : User) (now : Int)
    (refresh : Option RefreshOutcome) :
    (refreshGmailToken u now refresh).2.1.driveAccessToken = u.driveAccessToken ∧
    (refreshGmailToken u now refresh).2.1.driveRefreshToken = u.driveRefreshToken ∧
    (refreshGmailToken u now refresh).2.1.driveTokenExpiresAt = u.driveTokenExpiresAt ∧
    (refreshGmailToken u now refresh).2.1.driveConnectedAt = u.driveConnectedAt := by
  unfold refreshGmailToken
  by_cases h1 : isGmailConnected u <;>
    by_cases h2 : isTokenExpiredOrExpiringSoon u.gmailTokenExpiresAt now <;>
    cases refresh <;> simp [h1, h2]

lemma isDriveConnected_congr (u₁ u₂ : User)
    (ha : u₁.driveAccessToken = u₂.driveAccessToken)
    (hr : u₁.driveRefreshToken = u₂.driveRefreshToken)
    (hc : u₁.driveConnectedAt = u₂.driveConnectedAt) :
    isDriveConnected u₁ = isDriveConnected u₂ := by
  unfold isDriveConnected
  rw [ha, hr, hc]

lemma refreshDriveToken_bool_congr (u₁ u₂ : User) (now : Int)
    (refresh : Option RefreshOutcome)
    (ha : u₁.driveAccessToken = u₂.driveAccessToken)
    (hr : u₁.driveRefreshToken = u₂.driveRefreshToken)
    (he : u₁.driveTokenExpiresAt = u₂.driveTokenExpiresAt)
    (hc : u₁.driveConnectedAt = u₂.driveConnectedAt) :
    (refreshDriveToken u₁ now refresh).1 = (refreshDriveToken u₂ now refresh).1 := by
  unfold refreshDriveToken
  rw [isDriveConnected_congr u₁ u₂ ha hr hc, he]
  by_cases h1 : isDriveConnected u₂ <;>
    by_cases h2 : isTokenExpiredOrExpiringSoon u₂.driveTokenExpiresAt now <;>
    cases refresh <;> simp [h1, h2]

/-- A user whose Gmail credential expires 2 minutes after instant 0 (inside
the 5-minute buffer) and who has no Drive connection. -/
def wUserGmail : User :=
  ⟨some "at", some "rt", some 120, some 0, none, none, none, none, none, none, 0⟩

/-- A refresh that succeeds but whose refreshed credentials carry no expiry
(`credentials.expiry` is `None`). -/
def wRefreshNoExpiry : RefreshOutcome := ⟨"newtok", none⟩

/-- Claim C3 counterexample: for a connected, expiring credential whose
refresh succeeds without reporting an expiry, the source returns `True` yet
keeps the prior `expires_at` (the `if credentials.expiry:` guard), so
"on refresh success replaces access_token/expires_at" fails: the stored
expiry still equals the old value and differs from the refresh result's
expiry. -/
theorem c3_refresh_success_keeps_old_expiry :
    (refreshGmailToken wUserGmail 0 (some wRefreshNoExpiry)).1 = true ∧
    (refreshGmailToken wUserGmail 0 (some wRefreshNoExpiry)).2.1.gmailTokenExpiresAt =
      wUserGmail.gmailTokenExpiresAt ∧
    wUserGmail.gmailTokenExpiresAt ≠ wRefreshNoExpiry.expiry := by
  decide

/-- Claim C3 (amended): per-service `ensure_valid` behaves as claimed, with
the one amendment the counterexample forces — on refresh success the access
token is always replaced and persisted, while `expires_at` is replaced only
when the refreshed credentials carry an expiry (otherwise the prior expiry
is kept).  In detail: no credential → `false` with no refresh call; expiry
more than 5 minutes in the future → `true` with zero refresh calls and no
mutation; expiry unset or within 5 minutes → exactly one refresh call,
returning `false` with the credential untouched on failure.  (Stated for
Gmail; `refresh_drive_token` is the literal Drive twin.) -/
theorem c3_token_refresh_behaviour (u : User) (now : Int)
    (refresh : Option RefreshOutcome) :
    (isGmailConnected u = false → refreshGmailToken u now refresh = (false, u, 0)) ∧
    (isGmailConnected u = true →
      (∀ t, u.gmailTokenExpiresAt = some t → now < t - 5 * 60 →
        refreshGmailToken u now refresh = (true, u, 0))) ∧
    (isGmailConnected u = true →
      isTokenExpiredOrExpiringSoon u.gmailTokenExpiresAt now = true →
      ((refreshGmailToken u now refresh).2.2 = 1 ∧
        (refresh = none → refreshGmailToken u now refresh = (false, u, 1)) ∧
        (∀ r, refresh = some r →
          refreshGmailToken u now refresh =
            (true,
             { u with
               gmailAccessToken := some r.token
               gmailTokenExpiresAt :=
                 match r.expiry with
                 | some e => some e
                 | none => u.gmailTokenExpiresAt
               updatedAt := now },
             1)))) := by
  refine ⟨?_, ?_, ?_⟩
  · intro h
    unfold refreshGmailToken
    rw [h]
    rfl
  · intro hconn t ht hfut
    unfold refreshGmailToken
    rw [hconn]
    have hexp : isTokenExpiredOrExpiringSoon u.gmailTokenExpiresAt now = false := by
      rw [ht]
      unfold isTokenExpiredOrExpiringSoon
      simp
      omega
    rw [hexp]
    rfl
  · intro hconn hexp
    unfold refreshGmailToken
    rw [hconn, hexp]
    cases refresh with
    | none => exact ⟨rfl, fun _ => rfl, fun r hr => by simp at hr⟩
    | some r =>
      refine ⟨rfl, fun h => by simp at h, fun r' hr => ?_⟩
      obtain rfl : r = r' := by injection hr
      rfl

theorem c3_token_refresh_behaviour_witness :
    isGmailConnected wUserGmail = true ∧
    isTokenExpiredOrExpiringSoon wUserGmail.gmailTokenExpiresAt 0 = true ∧
    (refreshGmailToken wUserGmail 0 (some ⟨"nt", some 3600⟩)).2.2 = 1 :=
  ⟨by decide, by decide,
    ((c3_token_refresh_behaviour wUserGmail 0 (some ⟨"nt", some 3600⟩)).2.2
      (by decide) (by decide)).1⟩

/-- A user whose only connected service is a generic one ("confluence")
stored in the flexible credential maps — no legacy Gmail/Drive columns. -/
def wUserConfluence : User :=
  ⟨none, none, none, none, none, none, none, none,
   some [("confluence", ⟨some "tok", none, none⟩)],
   some [("confluence", ⟨some 0, none⟩)], 0⟩

/-- Claim C8 counterexample: `get_connected_services` reports the generic
service "confluence" as connected, but `refresh_all_user_tokens` only ever
produces entries for gmail and drive, so the returned key set is not the
set of connected services. -/
theorem c8_generic_service_not_refreshed :
    (refreshAllUserTokens wUserConfluence 0 none none).1.map Prod.fst ≠
      getConnectedServices wUserConfluence := by
  decide

/-- Claim C8 (amended): `refresh_all_user_tokens` returns exactly one
boolean per connected *legacy Google* service — its key list is "gmail"
when Gmail is connected followed by "drive" when Drive is connected
(services connected only through the generic store are not covered) — and
the per-service refreshes are independent: each service's entry equals its
own refresh outcome on the original user, so a failure of one never blocks
or alters the other's entry. -/
theorem c8_refresh_all_per_service (u : User) (now : Int)
    (gmailRefresh driveRefresh : Option RefreshOutcome) :
    (refreshAllUserTokens u now gmailRefresh driveRefresh).1 =
      (if isGmailConnected u then
        [("gmail", (refreshGmailToken u now gmailRefresh).1)] else []) ++
      (if isDriveConnected u then
        [("drive", (refreshDriveToken u now driveRefresh).1)] else []) ∧
    (refreshAllUserTokens u now gmailRefresh driveRefresh).1.map Prod.fst =
      (if isGmailConnected u then ["gmail"] else []) ++
      (if isDriveConnected u then ["drive"] else []) := by
  have hmain :
      (refreshAllUserTokens u now gmailRefresh driveRefresh).1 =
        (if isGmailConnected u then
          [("gmail", (refreshGmailToken u now gmailRefresh).1)] else []) ++
        (if isDriveConnected u then
          [("drive", (refreshDriveToken u now driveRefresh).1)] else []) := by
    unfold refreshAllUserTokens
    by_cases hg : isGmailConnected u
    · rw [if_pos hg, if_pos hg]
      dsimp only
      obtain ⟨ha, hr, he, hc⟩ := refreshGmailToken_drive_fields u now gmailRefresh
      rw [isDriveConnected_congr _ u ha hr hc]
      by_cases hd : isDriveConnected u
      · rw [if_pos hd, if_pos hd,
          refreshDriveToken_bool_congr _ u now driveRefresh ha hr he hc]
      · rw [if_neg hd, if_neg hd, List.append_nil]
    · rw [if_neg hg, if_neg hg]
      dsimp only
      by_cases hd : isDriveConnected u
      · rw [if_pos hd, if_pos hd, List.nil_append]
      · rw [if_neg hd, if_neg hd, List.append_nil]
  refine ⟨hmain, ?_⟩
  rw [hmain]
  by_cases hg : isGmailConnected u <;> by_cases hd : isDriveConnected u <;>
    simp [hg, hd]

/-! ### `LLMService.generate_case_study_stream` (llm_service.py 139-269)

The model backend (`model.astream`) is the external capability: it yields a
list of text chunks and then either finishes or raises with a message.  A
`StreamingChunk` keeps the fields the claims read; of the metadata payload
only `sections_generated` is retained (the remaining metadata entries —
durations, token estimate, model name — are never mentioned by a claim).
The second component of the engine's result counts how many streaming calls
were opened on the backend. -/

inductive ChunkType
  | sectionStart
  | content
  | sectionEnd
  | metadata
  | error
deriving DecidableEq

structure StreamingChunk where
  content : String
  chunkType : ChunkType
  sectionName : Option String
  sectionsGenerated : Option Nat
deriving DecidableEq

/-! Python string primitives, implemented structurally over the character
list of a `String` so that concrete runs reduce in the kernel.  `str.strip`
drops leading/trailing whitespace, `str.split(sep)` keeps empty pieces while
`str.split()` drops them, `str.replace` rewrites every non-overlapping
occurrence left to right. -/

def isWsChar (c : Char) : Bool := c = ' ' || c = '\t' || c = '\n' || c = '\r'

def stripWs (cs : List Char) : List Char :=
  ((cs.dropWhile isWsChar).reverse.dropWhile isWsChar).reverse

def splitOnPred (p : Char → Bool) : List Char → List (List Char)
  | [] => [[]]
  | c :: cs =>
    let r := splitOnPred p cs
    if p c then [] :: r
    else
      match r with
      | [] => [[c]]
      | h :: t => (c :: h) :: t

def startsWithChars : List Char → List Char → Bool
  | [], _ => true
  | _ :: _, [] => false
  | p :: ps, c :: cs => p = c && startsWithChars ps cs

def endsWithChars (pat cs : List Char) : Bool :=
  startsWithChars pat.reverse cs.reverse

def replaceCharsAux (pat rep : List Char) : Nat → List Char → List Char
  | 0, cs => cs
  | _ + 1, [] => []
  | fuel + 1, c :: cs =>
    if startsWithChars pat (c :: cs) then
      rep ++ replaceCharsAux pat rep fuel (cs.drop (pat.length - 1))
    else c :: replaceCharsAux pat rep fuel cs

def replaceChars (pat rep cs : List Char) : List Char :=
  replaceCharsAux pat rep cs.length cs

/-- `len(line.split())`: the number of whitespace-separated words. -/
def wordCount (cs : List Char) : Nat :=
  ((splitOnPred isWsChar cs).filter (fun w => w ≠ [])).length

/-- The last line of `text.strip().split('\n')`, stripped — shared by
`_is_section_boundary` and `_extract_section_name`. -/
def lastLine (text : String) : List Char :=
  stripWs ((splitOnPred (fun c => c = '\n') (stripWs text.data)).getLastD [])

/-- `_is_section_boundary` (llm_service.py 605-617). -/
def isSectionBoundary (text : String) : Bool :=
  let l := lastLine text
  startsWithChars "#".data l || startsWithChars "## ".data l ||
    (endsWithChars ":".data l && decide (wordCount l ≤ 5))

/-- `_extract_section_name` (llm_service.py 619-635): heading markers or the
colon removed (every occurrence, as `str.replace` does), trimmed. -/
def extractSectionName (text : String) : Option String :=
  let l := lastLine text
  if startsWithChars "##".data l then some ⟨stripWs (replaceChars "##".data [] l)⟩
  else if startsWithChars "#".data l then some ⟨stripWs (replaceChars "#".data [] l)⟩
  else if endsWithChars ":".data l then some ⟨stripWs (replaceChars ":".data [] l)⟩
  else none

/-- `_extract_sections` (llm_service.py 637-647): every line of the full
text that looks like a heading or a short trailing-colon line. -/
def extractSections (text : String) : List (List Char) :=
  ((splitOnPred (fun c => c = '\n') text.data).map stripWs).filter
    (fun l => startsWithChars "#".data l ||
      (endsWithChars ":".data l && decide (wordCount l ≤ 5)))

/-- Python truthiness of the optional current section name. -/
def optTruthy : Option String → Bool
  | some s => s ≠ ""
  | none => false

/-- One iteration of the token loop: a falsy (empty) chunk is skipped
entirely (`if hasattr(chunk, 'content') and chunk.content:`); otherwise the
chunk is appended to the accumulated text, the boundary heuristic may close
the open section and start a new one, and a `content` event tagged with the
now-current section is emitted. -/
def processStreamChunk (st : Option String × String) (c : String) :
    (Option String × String) × List StreamingChunk :=
  if c = "" then (st, [])
  else
    let acc := st.2 ++ c
    let next :=
      if isSectionBoundary acc then
        match extractSectionName acc with
        | some name =>
          if name ≠ "" ∧ some name ≠ st.1 then
            (some name,
              (if optTruthy st.1 then
                [⟨"", .sectionEnd, st.1, none⟩] else []) ++
              [⟨"", .sectionStart, some name, none⟩])
          else (st.1, ([] : List StreamingChunk))
        | none => (st.1, ([] : List StreamingChunk))
      else (st.1, ([] : List StreamingChunk))
    ((next.1, acc), next.2 ++ [⟨c, .content, next.1, none⟩])

/-- `generate_case_study_stream`: an unregistered model name yields a single
`error` chunk and returns before any backend call; otherwise one streaming
call is opened, the tokens are folded through `processStreamChunk` after an
initial `generation_started` marker, and the run ends either with the
backend's exception converted into a single `error` chunk (the `except`
clause) or with the closing `section_end` and the terminal `metadata`
chunk carrying `sections_generated`. -/
def generateCaseStudyStream (models : List String) (modelName : String)
    (backendChunks : List String) (backendRaises : Option String) :
    List StreamingChunk × Nat :=
  if modelName ∉ models then
    ([⟨"Model " ++ modelName ++ " not available", .error, none, none⟩], 0)
  else
    let startChunk : StreamingChunk :=
      ⟨"", .sectionStart, some "generation_started", none⟩
    let res := backendChunks.foldl
      (fun (p : (Option String × String) × List StreamingChunk) c =>
        let r := processStreamChunk p.1 c
        (r.1, p.2 ++ r.2))
      ((none, ""), [])
    let events := startChunk :: res.2
    match backendRaises with
    | some msg =>
      (events ++ [⟨"Generation error: " ++ msg, .error, none, none⟩], 1)
    | none =>
      let closing :=
        if optTruthy res.1.1 then [⟨"", .sectionEnd, res.1.1, none⟩] else []
      (events ++ closing ++
        [⟨"", .metadata, none, some (extractSections res.1.2).length⟩], 1)

/-- The event sequence produced for the spec's synthetic token stream, fed
line by line (the only chunking under which the expected `"Hello\n"` and
`"World\n"` content events can arise). -/
def syntheticStreamEvents : List StreamingChunk :=
  (generateCaseStudyStream ["gpt-4"] "gpt-4"
    ["## Intro\n", "Hello\n", "## Body\n", "World\n"] none).1

/-- Claim C5: on the synthetic stream `"## Intro\nHello\n## Body\nWorld\n"`
the engine detects the boundaries `Intro` then `Body` in that order (heading
markers stripped and trimmed), emits a `content` event `"Hello\n"` tagged
`Intro` and a `content` event `"World\n"` tagged `Body`, and emits exactly
one terminal `metadata` event with `sections_generated = 2`.  The first
conjunct fixes the entire event sequence (the engine additionally emits an
initial `generation_started` marker and tags the heading lines themselves
as content of their sections). -/
theorem c5_engine_section_detection :
    syntheticStreamEvents =
      [⟨"", .sectionStart, some "generation_started", none⟩,
       ⟨"", .sectionStart, some "Intro", none⟩,
       ⟨"## Intro\n", .content, some "Intro", none⟩,
       ⟨"Hello\n", .content, some "Intro", none⟩,
       ⟨"", .sectionEnd, some "Intro", none⟩,
       ⟨"", .sectionStart, some "Body", none⟩,
       ⟨"## Body\n", .content, some "Body", none⟩,
       ⟨"World\n", .content, some "Body", none⟩,
       ⟨"", .sectionEnd, some "Body", none⟩,
       ⟨"", .metadata, none, some 2⟩] ∧
    ⟨"Hello\n", .content, some "Intro", none⟩ ∈ syntheticStreamEvents ∧
    ⟨"World\n", .content, some "Body", none⟩ ∈ syntheticStreamEvents ∧
    (syntheticStreamEvents.filter
        (fun c => c.chunkType = ChunkType.metadata)) =
      [⟨"", .metadata, none, some 2⟩] ∧
    (syntheticStreamEvents.filter
        (fun c => c.chunkType = ChunkType.sectionEnd)).map
      StreamingChunk.sectionName = [some "Intro", some "Body"] := by
  decide

/-- Claim C9: a generation request naming a model outside the registry fails
immediately as a configuration error: the event sequence is exactly the one
error chunk naming the model — no content event, no section event — and
zero streaming calls are opened on any backend (the second component counts
backend calls), with no retry. -/
theorem c9_unknown_model_configuration_error (models : List String)
    (modelName : String) (backendChunks : List String)
    (backendRaises : Option String) (h : modelName ∉ models) :
    generateCaseStudyStream models modelName backendChunks backendRaises =
      ([⟨"Model " ++ modelName ++ " not available", .error, none, none⟩], 0) := by
  unfold generateCaseStudyStream
  rw [if_pos h]

theorem c9_unknown_model_configuration_error_witness :
    "gpt-5" ∉ ["gpt-4", "claude-3-sonnet"] ∧
    generateCaseStudyStream ["gpt-4", "claude-3-sonnet"] "gpt-5" ["x"] none =
      ([⟨"Model gpt-5 not available", .error, none, none⟩], 0) :=
  ⟨by decide,
    c9_unknown_model_configuration_error ["gpt-4", "claude-3-sonnet"] "gpt-5"
      ["x"] none (by decide)⟩

/-! ### The consuming SSE route (case_study_router.py 150-288) -/

inductive CaseStudyStatus
  | pending
  | generating
  | completed
  | failed
deriving DecidableEq

/-- The `stream_generator` of the `/generate/stream` route, projected onto
the state the claim reads: every chunk is forwarded to the client, `content`
chunks are appended to `full_content`, and after the loop the case study is
saved with status `completed`.  The route's `except` branch — the only place
status `failed` is set — runs only when the loop body itself raises
(persistence or transport failure); the modelled backend failure has
already been converted into an `error` chunk by the service, so the loop
terminates normally. -/
def runStreamGenerator (events : List StreamingChunk) :
    CaseStudyStatus × String :=
  let fullContent := events.foldl
    (fun acc c =>
      match c.chunkType with
      | .content => acc ++ c.content
      | _ => acc)
    ""
  (CaseStudyStatus.completed, fullContent)

/-- The full event trace when the backend raises `TransportError` after
emitting three content chunks. -/
def c4Events : List StreamingChunk :=
  (generateCaseStudyStream ["gpt-4"] "gpt-4"
    ["chunk one ", "chunk two ", "chunk three"] (some "TransportError")).1

/-- Claim C4, evaluated at the failing input: with the backend raising after
three emitted chunks, the service emits exactly one error event and the
accumulated text equals the concatenation of exactly those chunks — but the
job ends `completed`, not `failed`: the service's `except` swallows the
backend exception into an `error` chunk, the router's loop then finishes
normally and its save path marks the case study completed, so the router's
`failed` branch (case_study_router.py 271-282) is unreachable for backend
errors. -/
theorem c4_backend_failure_marks_completed :
    (runStreamGenerator c4Events).1 = CaseStudyStatus.completed ∧
    (runStreamGenerator c4Events).1 ≠ CaseStudyStatus.failed ∧
    (runStreamGenerator c4Events).2 = "chunk one chunk two chunk three" ∧
    (c4Events.filter (fun c => c.chunkType = ChunkType.error)).length = 1 := by
  decide

end CaseStudyGen
